import Mathlib

/-!
A shallow embedding in Lean 4 of the endpoint functions of `tk2/api.py`
(a set of remote-callable handlers over a document store), together with
theorems settling the behavioural claims about them.

Modelling conventions:
* Numeric document fields (`qty`, `rate`, `price`, monetary amounts) are
  rationals (`ℚ`); the source performs exact comparisons on them.
* Fallible handlers return `Except String α`; an `Except.error` models a
  `frappe.throw` that aborts the call before any insert/submit, so on the
  error path no document is persisted.
* Reads from the external store (customer table, currency-exchange table,
  account→company lookup, default cost center, today's date) are passed in
  explicitly as parameters, since the store is an external collaborator.
* Python truthiness is modelled explicitly: an optional string is truthy
  exactly when it is present and non-empty; a rational is truthy exactly
  when it is non-zero.
-/

namespace Tk2

/-! ## Data model -/

/-- A row of the external `Customer` table, restricted to the fields these
handlers touch. -/
structure Customer where
  name : String
  email_id : String
  mobile_no : String
deriving DecidableEq, Repr

/-- A child accounts-row of a Customer (`accounts` table). -/
structure CustomerAccountRow where
  account : String
  company : String
deriving DecidableEq, Repr

/-- The Customer document staged by `create_customer`. -/
structure NewCustomer where
  customer_name : String
  customer_group : String
  territory : String
  country : Option String
  default_currency : Option String
  email_id : Option String
  mobile_no : Option String
  accounts : List CustomerAccountRow
deriving DecidableEq, Repr

/-- A line item of a Customer Service Sheet (`item` child table). -/
structure CSSItem where
  item_code : String
  qty : ℚ
  rate : ℚ
deriving DecidableEq, Repr

/-- A Customer Service Sheet, restricted to the fields `create_sales_invoice`
reads. -/
structure CustomerServiceSheet where
  erp_customer : String
  price : ℚ
  custom_agent : String
  item : List CSSItem
deriving DecidableEq, Repr

/-- A Sales Invoice line (`items` child table). -/
structure SalesInvoiceItem where
  item_code : String
  qty : ℚ
  rate : ℚ
deriving DecidableEq, Repr

/-- The Sales Invoice document staged by `create_sales_invoice`. The
discount fields are `Option`s: `none` models "field not set". -/
structure SalesInvoice where
  company : String
  customer : String
  posting_date : String
  set_posting_time : Nat
  custom_agent : String
  write_off_amount : ℚ
  base_write_off_amount : ℚ
  items : List SalesInvoiceItem
  apply_discount_on : Option String
  discount_amount : Option ℚ
  additional_discount_percentage : Option ℚ
deriving DecidableEq, Repr

/-- A selected invoice passed to `create_journal_entry2` (parsed JSON). -/
structure SelInvoice where
  name : String
  customer : String
  outstanding_amount : ℚ
deriving DecidableEq, Repr

/-- An agent payment passed to `create_journal_entry2` (parsed JSON);
`Option` fields model keys that may be absent or null. -/
structure AgentPayment where
  name : String
  date : Option String
  bank : String
  commissions_deducted : Option ℚ
  charges_deducted : Option ℚ
  selected_total : Option ℚ
deriving DecidableEq, Repr

/-- A Journal Entry accounts line. -/
structure JELine where
  account : String
  debit_in_account_currency : ℚ
  credit_in_account_currency : ℚ
  party_type : String
  party : String
  cost_center : String
  reference_type : Option String
  reference_name : Option String
deriving DecidableEq, Repr

/-- The Journal Entry document staged by `create_journal_entry2`. -/
structure JournalEntry where
  voucher_type : String
  posting_date : String
  reference_no : String
  reference_date : String
  company : String
  accounts : List JELine
deriving DecidableEq, Repr

/-- A row of the `Currency Exchange` table. Dates are totally ordered;
they are modelled as integers. -/
structure CurrencyExchange where
  from_currency : String
  to_currency : String
  date : Int
  exchange_rate : ℚ
deriving DecidableEq, Repr

/-- The ambient session state touched by `update_user_role`: the acting
session user and the `role_profile_name` column of the `User` table. -/
structure UserState where
  session_user : String
  role_profile : String → String

/-- A Python value as it can arrive in the `active` argument of
`update_user_role` over the wire: a boolean, an integer, or a string. -/
inductive PyVal where
  | pybool (b : Bool)
  | pyint (n : Int)
  | pystr (s : String)
deriving DecidableEq, Repr

/-! ## Python helpers -/

/-- Python truthiness of an optional string: `None` and `""` are falsy. -/
def truthyStr (o : Option String) : Bool := o.getD "" ≠ ""

/-- `float(x or 0)` on an optional numeric field: `None` (and `0`) give `0`. -/
def orZero (o : Option ℚ) : ℚ := o.getD 0

/-- `x or default` on an optional string: `None` and `""` fall back. -/
def orElseStr (o : Option String) (dflt : String) : String :=
  if o.getD "" = "" then dflt else o.getD ""

/-- Python `str.lower()`: lower-case every character. -/
def lowerStr (s : String) : String := ⟨s.data.map Char.toLower⟩

/-- Python `==` restricted to the bool/int/str values modelled here:
`True == 1`, `False == 0`, and strings compare only with strings. -/
def pyEq : PyVal → PyVal → Bool
  | .pybool a, .pybool b => a == b
  | .pybool a, .pyint n => n == (if a then 1 else 0)
  | .pyint n, .pybool b => n == (if b then 1 else 0)
  | .pyint a, .pyint b => a == b
  | .pystr a, .pystr b => a == b
  | _, _ => false

/-! ## `search_customer` -/

/-- `search_customer(email, mobile)`: look up by email first; on a match
return the first matching name; otherwise look up by mobile; otherwise
`None`. The store is passed as the list `db` in table order. -/
def search_customer (db : List Customer) (email mobile : Option String) :
    Option String :=
  match (if truthyStr email then db.filter (fun c => c.email_id == email.getD "") else []) with
  | c :: _ => some c.name
  | [] =>
    match (if truthyStr mobile then db.filter (fun c => c.mobile_no == mobile.getD "") else []) with
    | c :: _ => some c.name
    | [] => none

/-! ## `create_customer` -/

/-- The error raised by the Python interpreter in `create_customer`'s Ghana
branch: the variable `company` is referenced but never bound in scope, so
appending the accounts row raises a `NameError` before any insert. -/
def nameErrorCompanyMsg : String := "NameError: name company is not defined"

/-- `create_customer`: stage a Customer with group "Individual" and
territory "Nigeria"; if `country == "Ghana"` override the territory and,
if a default account is supplied, append an accounts row — which in the
source reads the unbound variable `company` and therefore raises. -/
def create_customer (customer_name : String)
    (country default_account billing_currency email mobile : Option String) :
    Except String NewCustomer :=
  let base : NewCustomer :=
    { customer_name := customer_name
      customer_group := "Individual"
      territory := "Nigeria"
      country := country
      default_currency := billing_currency
      email_id := email
      mobile_no := mobile
      accounts := [] }
  if country = some "Ghana" then
    if truthyStr default_account then
      Except.error nameErrorCompanyMsg
    else
      Except.ok { base with territory := "Ghana" }
  else
    Except.ok base

/-! ## `create_sales_invoice` -/

/-- Sum of `qty * rate` over the sheet's line items. -/
def lineSum (items : List CSSItem) : ℚ := (items.map fun r => r.qty * r.rate).sum

/-- Lower-cased item code of the first line item, or `""` if there are no
line items. -/
def firstItemCode (items : List CSSItem) : String :=
  match items with
  | [] => ""
  | r :: _ => lowerStr r.item_code

def noCustomerMsg : String := "No linked Customer found in erp_customer field"

def underPriceMsg : String :=
  "Order Price is not equal to the invoice price. Please add comboex  on the first row if this is a combo."

def overPriceMsg : String :=
  "Order Price is not equal to the invoice price, and the first row is not Comboex. Please add a comboex  on the first row or fix your items."

/-- The Sales Invoice staged before the discount step: fixed company, one
invoice line per sheet line (item code, qty, rate copied verbatim), no
discount fields set. -/
def baseInvoice (today : String) (doc : CustomerServiceSheet) : SalesInvoice :=
  { company := "Timmie Kettle"
    customer := doc.erp_customer
    posting_date := today
    set_posting_time := 1
    custom_agent := doc.custom_agent
    write_off_amount := 0
    base_write_off_amount := 0
    items := doc.item.map fun r => { item_code := r.item_code, qty := r.qty, rate := r.rate }
    apply_discount_on := none
    discount_amount := none
    additional_discount_percentage := none }

/-- `create_sales_invoice`: validate the linked customer, compare the line
sum with the sheet price, reject mismatches unless the first item code is
"comboex", and when the lines exceed the price on a comboex sheet apply a
Grand-Total discount of the difference. `today` stands for `nowdate()`. -/
def create_sales_invoice (today : String) (doc : CustomerServiceSheet) :
    Except String SalesInvoice :=
  if doc.erp_customer = "" then
    Except.error noCustomerMsg
  else if lineSum doc.item - doc.price < 0 ∧ firstItemCode doc.item ≠ "comboex" then
    Except.error underPriceMsg
  else if lineSum doc.item - doc.price > 0 ∧ firstItemCode doc.item ≠ "comboex" then
    Except.error overPriceMsg
  else if lineSum doc.item - doc.price > 0 ∧ firstItemCode doc.item = "comboex" then
    Except.ok { baseInvoice today doc with
                  apply_discount_on := some "Grand Total"
                  discount_amount := some (lineSum doc.item - doc.price)
                  additional_discount_percentage := some 0 }
  else
    Except.ok (baseInvoice today doc)

/-- Sum of `qty * rate` over the invoice's lines. -/
def invoiceLineTotal (si : SalesInvoice) : ℚ :=
  (si.items.map fun r => r.qty * r.rate).sum

/-- Modelled from the spec: the grand total of a submitted invoice is
computed by the host framework (out of scope of this repository) as the sum
of the line amounts minus the Grand-Total discount amount; an unset
discount contributes nothing. -/
def grand_total (si : SalesInvoice) : ℚ :=
  invoiceLineTotal si - (si.discount_amount.getD 0)

/-! ## `get_exchange_rate` -/

/-- Row filter of the `Currency Exchange` query: from `currency` to "NGN",
dated on or before `date`. -/
def ceMatches (currency : String) (date : Int) (r : CurrencyExchange) : Bool :=
  r.from_currency == currency && r.to_currency == "NGN" && decide (r.date ≤ date)

/-- `order_by="date desc"` with a single-row fetch: pick a row of maximal
date from the filtered rows (the first such row in table order). -/
def pickLatest : List CurrencyExchange → Option CurrencyExchange
  | [] => none
  | r :: rs =>
    match pickLatest rs with
    | none => some r
    | some m => if m.date > r.date then some m else some r

def rateNotFoundMsg (currency : String) (date : Int) : String :=
  "Exchange rate not found for " ++ currency ++ " to NGN on or before " ++ toString date

/-- `get_exchange_rate(currency, date)`: 1.0 for "NGN" without touching the
store; otherwise fetch the exchange rate of the latest matching row and
throw when the fetch is falsy — which in Python covers both "no row" and a
stored rate of exactly 0. -/
def get_exchange_rate (store : List CurrencyExchange) (currency : String)
    (date : Int) : Except String ℚ :=
  if currency = "NGN" then
    Except.ok 1
  else
    match pickLatest (store.filter (ceMatches currency date)) with
    | none => Except.error (rateNotFoundMsg currency date)
    | some r =>
      if r.exchange_rate = 0 then Except.error (rateNotFoundMsg currency date)
      else Except.ok r.exchange_rate

/-! ## `update_user_role` -/

/-- `frappe.set_user`. -/
def set_user (st : UserState) (u : String) : UserState :=
  { st with session_user := u }

/-- `update_user_role(user, active)`: choose the role by `active in
[True, "1", 1]` (Python `==` membership), elevate to Administrator, write
the role, and restore the original session user in a `finally` block.
`dbFailure` is an oracle for the external `set_value` call: `some e` means
the store raised `e`, in which case the exception propagates after the
`finally` restoration and no role is written. -/
def update_user_role (st : UserState) (user : String) (active : PyVal)
    (dbFailure : Option String) : UserState × Except String Bool :=
  let new_role :=
    if ([PyVal.pybool true, PyVal.pystr "1", PyVal.pyint 1].any fun v => pyEq active v) then
      "Customer Service"
    else
      "Test"
  let current_user := st.session_user
  let st1 := set_user st "Administrator"
  match dbFailure with
  | some e => (set_user st1 current_user, Except.error e)
  | none =>
    let st2 := { st1 with
                   role_profile := fun u => if u = user then new_role else st1.role_profile u }
    (set_user st2 current_user, Except.ok true)

/-! ## `create_journal_entry2` -/

def mismatchMsg (computed selected : ℚ) : String :=
  "The computed net payment (" ++ toString computed ++
    ") does not equal the Selected Total (" ++ toString selected ++ ")."

/-- `create_journal_entry2(agent_payment, selected_invoices)`: reject when
the invoice total net of commission and charges differs from the
`selected_total` field; otherwise stage a Journal Entry debiting the bank
for the net, crediting the receivable account once per selected invoice,
and debiting commission/charges lines when those amounts are truthy.
`company`, `default_ar` and `cost_center` stand for the store lookups of
the bank account's company, its default receivable account and the default
cost center; `today` stands for `nowdate()`. -/
def create_journal_entry2 (today company default_ar cost_center : String)
    (agent_payment : AgentPayment) (selected_invoices : List SelInvoice) :
    Except String JournalEntry :=
  let invoice_total := (selected_invoices.map fun inv => inv.outstanding_amount).sum
  let commission := orZero agent_payment.commissions_deducted
  let charges := orZero agent_payment.charges_deducted
  let computed_total := invoice_total - commission - charges
  let selected_total_field := orZero agent_payment.selected_total
  if computed_total ≠ selected_total_field then
    Except.error (mismatchMsg computed_total selected_total_field)
  else
    Except.ok
      { voucher_type := "Journal Entry"
        posting_date := orElseStr agent_payment.date today
        reference_no := agent_payment.name
        reference_date := orElseStr agent_payment.date today
        company := company
        accounts :=
          ({ account := agent_payment.bank
             debit_in_account_currency := computed_total
             credit_in_account_currency := 0
             party_type := ""
             party := ""
             cost_center := cost_center
             reference_type := none
             reference_name := none } ::
            selected_invoices.map fun inv =>
              { account := default_ar
                debit_in_account_currency := 0
                credit_in_account_currency := inv.outstanding_amount
                party_type := "Customer"
                party := inv.customer
                cost_center := cost_center
                reference_type := some "Sales Invoice"
                reference_name := some inv.name })
          ++ (if commission ≠ 0 then
                [{ account := "Commission on Sales - TK"
                   debit_in_account_currency := commission
                   credit_in_account_currency := 0
                   party_type := ""
                   party := ""
                   cost_center := cost_center
                   reference_type := none
                   reference_name := none }]
              else [])
          ++ (if charges ≠ 0 then
                [{ account := "Delivery Charges - TK"
                   debit_in_account_currency := charges
                   credit_in_account_currency := 0
                   party_type := ""
                   party := ""
                   cost_center := cost_center
                   reference_type := none
                   reference_name := none }]
              else []) }

/-- Total of the debit column of a list of journal lines. -/
def sumDebits (lines : List JELine) : ℚ :=
  (lines.map fun a => a.debit_in_account_currency).sum

/-- Total of the credit column of a list of journal lines. -/
def sumCredits (lines : List JELine) : ℚ :=
  (lines.map fun a => a.credit_in_account_currency).sum

/-! ## Concrete documents used in counterexamples and witnesses -/

/-- A sheet with no linked customer, no lines, and a positive price. -/
def c2sheet : CustomerServiceSheet :=
  { erp_customer := "", price := 5, custom_agent := "", item := [] }

/-- A store whose only matching row carries a stored rate of exactly 0. -/
def zeroRateStore : List CurrencyExchange :=
  [{ from_currency := "USD", to_currency := "NGN", date := 5, exchange_rate := 0 }]

/-- A store with three USD rows at distinct dates. -/
def rateStoreW : List CurrencyExchange :=
  [{ from_currency := "USD", to_currency := "NGN", date := 3, exchange_rate := 500 },
   { from_currency := "USD", to_currency := "NGN", date := 7, exchange_rate := 600 },
   { from_currency := "USD", to_currency := "NGN", date := 12, exchange_rate := 700 }]

/-- A comboex sheet whose lines exceed the price by 50. -/
def sheetOverW : CustomerServiceSheet :=
  { erp_customer := "CUST-0001", price := 150, custom_agent := "Agent A",
    item := [{ item_code := "comboex", qty := 1, rate := 200 }] }

/-- A sheet whose lines sum exactly to the price. -/
def sheetExactW : CustomerServiceSheet :=
  { erp_customer := "CUST-0001", price := 100, custom_agent := "Agent A",
    item := [{ item_code := "ITEM-1", qty := 2, rate := 50 }] }

/-- A non-comboex sheet whose lines fall short of the price. -/
def sheetUnderW : CustomerServiceSheet :=
  { erp_customer := "CUST-0001", price := 150, custom_agent := "Agent A",
    item := [{ item_code := "ITEM-1", qty := 1, rate := 100 }] }

/-- Two selected invoices with outstanding amounts 100 and 50. -/
def invsW : List SelInvoice :=
  [{ name := "SI-0001", customer := "CustA", outstanding_amount := 100 },
   { name := "SI-0002", customer := "CustB", outstanding_amount := 50 }]

/-- An agent payment whose selected total matches 150 - 10 - 5. -/
def apGoodW : AgentPayment :=
  { name := "AP-0001", date := some "2026-10-01", bank := "Bank - TK",
    commissions_deducted := some 10, charges_deducted := some 5,
    selected_total := some 135 }

/-- An agent payment whose selected total disagrees with the computed net. -/
def apBadW : AgentPayment :=
  { name := "AP-0002", date := none, bank := "Bank - TK",
    commissions_deducted := some 10, charges_deducted := some 5,
    selected_total := some 100 }

/-- A customer table where the email match and the mobile match are
different customers. -/
def dbW : List Customer :=
  [{ name := "CUST-A", email_id := "a@x.com", mobile_no := "0801" },
   { name := "CUST-B", email_id := "b@x.com", mobile_no := "0802" }]

/-! ## Helper lemmas -/

theorem sum_map_fun_zero {α : Type} (l : List α) : (l.map fun _ => (0 : ℚ)).sum = 0 := by
  induction l with
  | nil => simp
  | cons a tl ih => simp [ih]

theorem pickLatest_eq_none {l : List CurrencyExchange} :
    pickLatest l = none ↔ l = [] := by
  cases l with
  | nil => simp [pickLatest]
  | cons r rs =>
    cases h : pickLatest rs with
    | none => simp [pickLatest, h]
    | some m =>
      simp only [pickLatest, h]
      split <;> simp

theorem pickLatest_spec {l : List CurrencyExchange} {r : CurrencyExchange}
    (h : pickLatest l = some r) : r ∈ l ∧ ∀ x ∈ l, x.date ≤ r.date := by
  induction l generalizing r with
  | nil => simp [pickLatest] at h
  | cons a rs ih =>
    rw [pickLatest] at h
    cases hrs : pickLatest rs with
    | none =>
      simp only [hrs] at h
      have hnil : rs = [] := pickLatest_eq_none.mp hrs
      subst hnil
      cases h
      simp
    | some m =>
      simp only [hrs] at h
      obtain ⟨hm, hall⟩ := ih hrs
      by_cases hd : m.date > a.date
      · rw [if_pos hd] at h
        cases h
        refine ⟨List.mem_cons_of_mem _ hm, ?_⟩
        intro x hx
        rcases List.mem_cons.mp hx with h1 | h2
        · subst h1; omega
        · exact hall x h2
      · rw [if_neg hd] at h
        cases h
        push_neg at hd
        refine ⟨List.mem_cons_self _ _, ?_⟩
        intro x hx
        rcases List.mem_cons.mp hx with h1 | h2
        · subst h1; exact le_refl _
        · exact le_trans (hall x h2) hd

theorem pyEq_role_iff (active : PyVal) :
    (([PyVal.pybool true, PyVal.pystr "1", PyVal.pyint 1].any fun v => pyEq active v) = true)
      ↔ (active = PyVal.pybool true ∨ active = PyVal.pystr "1" ∨ active = PyVal.pyint 1) := by
  cases active with
  | pybool b => cases b <;> simp [pyEq]
  | pyint n => simp [pyEq]
  | pystr s => simp [pyEq]

/-- The line total of the staged invoice equals the sheet's line sum: each
sheet line is copied verbatim onto the invoice. -/
theorem invoiceLineTotal_baseInvoice (today : String) (doc : CustomerServiceSheet) :
    invoiceLineTotal (baseInvoice today doc) = lineSum doc.item := by
  simp [invoiceLineTotal, baseInvoice, lineSum, List.map_map, Function.comp_def]

/-! ## Claim theorems -/

/-- C2 counterexample: a sheet with an empty `erp_customer`, no line items
and price 5 has line sum 0 < 5 and a first item code distinct from
"comboex", yet `create_sales_invoice` fails with the missing-customer
message, not the under-price mismatch message. -/
theorem create_sales_invoice_missing_customer_cex :
    lineSum c2sheet.item < c2sheet.price ∧
    firstItemCode c2sheet.item ≠ "comboex" ∧
    create_sales_invoice "2026-10-12" c2sheet = Except.error noCustomerMsg ∧
    noCustomerMsg ≠ underPriceMsg := by
  refine ⟨by norm_num [lineSum, c2sheet], by decide, rfl, by decide⟩

/-- C2 (amended): for every sheet with a non-empty `erp_customer` whose
line sum is strictly below the price and whose first item code, lowercased,
is not "comboex" (the zero-line case included), `create_sales_invoice`
fails with the under-price mismatch message, so no invoice is staged,
inserted or submitted. -/
theorem create_sales_invoice_under_not_comboex_fails (today : String)
    (doc : CustomerServiceSheet) (hc : doc.erp_customer ≠ "")
    (hsum : lineSum doc.item < doc.price)
    (hfirst : firstItemCode doc.item ≠ "comboex") :
    create_sales_invoice today doc = Except.error underPriceMsg := by
  unfold create_sales_invoice
  rw [if_neg hc, if_pos ⟨by linarith, hfirst⟩]

/-- Witness for the amended C2 theorem at a concrete sheet. -/
theorem create_sales_invoice_under_not_comboex_fails_witness :
    create_sales_invoice "2026-10-12" sheetUnderW = Except.error underPriceMsg :=
  create_sales_invoice_under_not_comboex_fails "2026-10-12" sheetUnderW
    (by decide) (by norm_num [lineSum, sheetUnderW]) (by decide)

/-- C5: for every sheet with a non-empty `erp_customer` whose line sum
exactly equals the price, `create_sales_invoice` succeeds, sets none of the
discount fields, and copies every line's item code, qty and rate verbatim
onto the invoice. -/
theorem create_sales_invoice_exact_no_discount (today : String)
    (doc : CustomerServiceSheet) (hc : doc.erp_customer ≠ "")
    (hsum : lineSum doc.item = doc.price) :
    create_sales_invoice today doc = Except.ok (baseInvoice today doc) ∧
      (baseInvoice today doc).apply_discount_on = none ∧
      (baseInvoice today doc).discount_amount = none ∧
      (baseInvoice today doc).additional_discount_percentage = none ∧
      (baseInvoice today doc).items =
        doc.item.map fun r => { item_code := r.item_code, qty := r.qty, rate := r.rate } := by
  refine ⟨?_, rfl, rfl, rfl, rfl⟩
  unfold create_sales_invoice
  have hzero : lineSum doc.item - doc.price = 0 := by rw [hsum]; ring
  rw [if_neg hc, hzero]
  norm_num

/-- Witness for the C5 theorem at a concrete sheet. -/
theorem create_sales_invoice_exact_no_discount_witness :
    create_sales_invoice "2026-10-12" sheetExactW =
        Except.ok (baseInvoice "2026-10-12" sheetExactW) ∧
      (baseInvoice "2026-10-12" sheetExactW).apply_discount_on = none ∧
      (baseInvoice "2026-10-12" sheetExactW).discount_amount = none ∧
      (baseInvoice "2026-10-12" sheetExactW).additional_discount_percentage = none ∧
      (baseInvoice "2026-10-12" sheetExactW).items =
        sheetExactW.item.map fun r =>
          { item_code := r.item_code, qty := r.qty, rate := r.rate } :=
  create_sales_invoice_exact_no_discount "2026-10-12" sheetExactW
    (by decide) (by norm_num [lineSum, sheetExactW])

/-- C1: for every sheet with a non-empty `erp_customer` whose line sum
strictly exceeds the price and whose first item code, lowercased, is
"comboex", `create_sales_invoice` succeeds with a Grand-Total discount of
`lineSum - price` and zero percentage discount, so the invoice grand total
equals the sheet price. -/
theorem create_sales_invoice_over_comboex_discount (today : String)
    (doc : CustomerServiceSheet) (hc : doc.erp_customer ≠ "")
    (hsum : lineSum doc.item > doc.price)
    (hfirst : firstItemCode doc.item = "comboex") :
    ∃ si, create_sales_invoice today doc = Except.ok si ∧
      si.apply_discount_on = some "Grand Total" ∧
      si.discount_amount = some (lineSum doc.item - doc.price) ∧
      si.additional_discount_percentage = some 0 ∧
      grand_total si = doc.price := by
  have hpos : lineSum doc.item - doc.price > 0 := by linarith
  refine ⟨{ baseInvoice today doc with
              apply_discount_on := some "Grand Total"
              discount_amount := some (lineSum doc.item - doc.price)
              additional_discount_percentage := some 0 },
          ?_, rfl, rfl, rfl, ?_⟩
  · unfold create_sales_invoice
    rw [if_neg hc, if_neg (by rintro ⟨h1, -⟩; linarith),
        if_neg (by rintro ⟨-, h2⟩; exact h2 hfirst), if_pos ⟨hpos, hfirst⟩]
  · have hbase : invoiceLineTotal (baseInvoice today doc) = lineSum doc.item :=
      invoiceLineTotal_baseInvoice today doc
    simp only [grand_total, invoiceLineTotal] at hbase ⊢
    simp only [baseInvoice] at hbase ⊢
    rw [hbase]
    simp

/-- Witness for the C1 theorem at a concrete comboex sheet. -/
theorem create_sales_invoice_over_comboex_discount_witness :
    ∃ si, create_sales_invoice "2026-10-12" sheetOverW = Except.ok si ∧
      si.apply_discount_on = some "Grand Total" ∧
      si.discount_amount = some (lineSum sheetOverW.item - sheetOverW.price) ∧
      si.additional_discount_percentage = some 0 ∧
      grand_total si = sheetOverW.price :=
  create_sales_invoice_over_comboex_discount "2026-10-12" sheetOverW
    (by decide) (by norm_num [lineSum, sheetOverW]) (by decide)

/-- C6: `create_customer`'s own docstring promises that for a Ghana
customer with a default account an accounts child row is appended and the
new identifier returned; the code instead reads the unbound variable
`company` there and raises, while the Ghana branch without a default
account does set the territory to "Ghana". -/
theorem create_customer_ghana_account_name_error :
    create_customer "Kofi" (some "Ghana") (some "Debtors - TK") none none none =
      Except.error nameErrorCompanyMsg ∧
    create_customer "Kofi" (some "Ghana") none none none none =
      Except.ok { customer_name := "Kofi", customer_group := "Individual",
                  territory := "Ghana", country := some "Ghana",
                  default_currency := none, email_id := none, mobile_no := none,
                  accounts := [] } := by
  exact ⟨rfl, rfl⟩

/-- C8: for every store and every date, `get_exchange_rate` on "NGN"
returns exactly 1 without consulting the store (the result is the same for
all stores). -/
theorem get_exchange_rate_ngn_one (store : List CurrencyExchange) (date : Int) :
    get_exchange_rate store "NGN" date = Except.ok 1 := by
  unfold get_exchange_rate
  rw [if_pos rfl]

/-- C7 counterexample: a store holds a matching rate record (USD→NGN dated
on or before the query date), yet `get_exchange_rate` raises the not-found
error because the stored rate is exactly 0, which Python's `if not rate`
treats like a missing row. -/
theorem get_exchange_rate_zero_rate_cex :
    (∃ r ∈ zeroRateStore,
        r.from_currency = "USD" ∧ r.to_currency = "NGN" ∧ r.date ≤ (5 : Int)) ∧
    get_exchange_rate zeroRateStore "USD" 5 =
      Except.error (rateNotFoundMsg "USD" 5) := by
  constructor
  · exact ⟨{ from_currency := "USD", to_currency := "NGN", date := 5, exchange_rate := 0 },
           by simp [zeroRateStore], rfl, rfl, by norm_num⟩
  · rfl

/-- C7 (amended): for every currency other than "NGN", `get_exchange_rate`
returns the exchange rate of the most recent matching record (currency →
NGN, dated on or before the given date, never a future-dated one) when that
rate is non-zero, and raises the not-found error when no matching record
exists or the selected most recent record carries a rate of exactly 0; it
never returns null. -/
theorem get_exchange_rate_latest_spec (store : List CurrencyExchange)
    (currency : String) (date : Int) (hc : currency ≠ "NGN") :
    (store.filter (ceMatches currency date) = [] →
        get_exchange_rate store currency date =
          Except.error (rateNotFoundMsg currency date))
    ∧ (∀ r, pickLatest (store.filter (ceMatches currency date)) = some r →
        (r ∈ store ∧ r.from_currency = currency ∧ r.to_currency = "NGN" ∧
            r.date ≤ date)
        ∧ (∀ x ∈ store, x.from_currency = currency → x.to_currency = "NGN" →
            x.date ≤ date → x.date ≤ r.date)
        ∧ get_exchange_rate store currency date =
            (if r.exchange_rate = 0 then
              Except.error (rateNotFoundMsg currency date)
            else Except.ok r.exchange_rate)) := by
  constructor
  · intro hnil
    unfold get_exchange_rate
    rw [if_neg hc, hnil]
    rfl
  · intro r hr
    obtain ⟨hmem, hmax⟩ := pickLatest_spec hr
    obtain ⟨hstore, hmatch⟩ := List.mem_filter.mp hmem
    simp only [ceMatches, Bool.and_eq_true, beq_iff_eq, decide_eq_true_eq] at hmatch
    refine ⟨⟨hstore, hmatch.1.1, hmatch.1.2, hmatch.2⟩, ?_, ?_⟩
    · intro x hx h1 h2 h3
      exact hmax x (List.mem_filter.mpr
        ⟨hx, by simp [ceMatches, h1, h2, h3]⟩)
    · unfold get_exchange_rate
      rw [if_neg hc, hr]

/-- Witness for the amended C7 theorem: on a store of three USD rows at
dates 3, 7 and 12, a query at date 8 returns the rate of the row dated 7. -/
theorem get_exchange_rate_latest_spec_witness :
    get_exchange_rate rateStoreW "USD" 8 = Except.ok 600 := by
  have h := (get_exchange_rate_latest_spec rateStoreW "USD" 8 (by decide)).2
    { from_currency := "USD", to_currency := "NGN", date := 7, exchange_rate := 600 }
    (by decide)
  rw [h.2.2]
  norm_num

/-- C3: whenever the selected invoices' outstanding total net of commission
and charges differs (exact equality on the numbers) from the agent
payment's `selected_total` field, `create_journal_entry2` fails with the
mismatch message, so no Journal Entry is staged, inserted or submitted. -/
theorem create_journal_entry2_mismatch_fails
    (today company default_ar cost_center : String)
    (ap : AgentPayment) (invs : List SelInvoice)
    (h : (invs.map fun inv => inv.outstanding_amount).sum -
          orZero ap.commissions_deducted - orZero ap.charges_deducted ≠
        orZero ap.selected_total) :
    create_journal_entry2 today company default_ar cost_center ap invs =
      Except.error (mismatchMsg
        ((invs.map fun inv => inv.outstanding_amount).sum -
          orZero ap.commissions_deducted - orZero ap.charges_deducted)
        (orZero ap.selected_total)) := by
  simp only [create_journal_entry2]
  rw [if_pos h]

/-- Witness for the C3 theorem: outstanding 150 minus deductions 15 is 135,
which differs from the declared selected total 100. -/
theorem create_journal_entry2_mismatch_fails_witness :
    create_journal_entry2 "2026-10-12" "Timmie Kettle" "Debtors - TK" "Main - TK"
        apBadW invsW =
      Except.error (mismatchMsg
        ((invsW.map fun inv => inv.outstanding_amount).sum -
          orZero apBadW.commissions_deducted - orZero apBadW.charges_deducted)
        (orZero apBadW.selected_total)) :=
  create_journal_entry2_mismatch_fails "2026-10-12" "Timmie Kettle" "Debtors - TK"
    "Main - TK" apBadW invsW
    (by norm_num [invsW, apBadW, orZero])

/-- C4: every Journal Entry that `create_journal_entry2` stages is
balanced: the debit column (bank net, plus commission and charges lines
when non-zero) sums to exactly the credit column (one receivable line per
selected invoice). -/
theorem create_journal_entry2_balanced
    (today company default_ar cost_center : String)
    (ap : AgentPayment) (invs : List SelInvoice) (je : JournalEntry)
    (h : create_journal_entry2 today company default_ar cost_center ap invs =
      Except.ok je) :
    sumDebits je.accounts = sumCredits je.accounts := by
  simp only [create_journal_entry2] at h
  split at h
  · cases h
  · simp only [Except.ok.injEq] at h
    subst h
    simp only [sumDebits, sumCredits, List.map_cons, List.map_append,
      List.sum_cons, List.sum_append, List.map_map, Function.comp_def]
    by_cases hcomm : orZero ap.commissions_deducted = 0 <;>
      by_cases hch : orZero ap.charges_deducted = 0 <;>
        (simp [hcomm, hch, sum_map_fun_zero]; try ring)

/-- Witness for the C4 theorem at a concrete passing payment. -/
theorem create_journal_entry2_balanced_witness :
    ∃ je, create_journal_entry2 "2026-10-12" "Timmie Kettle" "Debtors - TK"
        "Main - TK" apGoodW invsW = Except.ok je ∧
      sumDebits je.accounts = sumCredits je.accounts := by
  have hcond : ¬((invsW.map fun inv => inv.outstanding_amount).sum -
      orZero apGoodW.commissions_deducted - orZero apGoodW.charges_deducted ≠
      orZero apGoodW.selected_total) := by
    norm_num [invsW, apGoodW, orZero]
  obtain ⟨je, hje⟩ : ∃ je, create_journal_entry2 "2026-10-12" "Timmie Kettle"
      "Debtors - TK" "Main - TK" apGoodW invsW = Except.ok je := by
    simp only [create_journal_entry2]
    rw [if_neg hcond]
    exact ⟨_, rfl⟩
  exact ⟨je, hje, create_journal_entry2_balanced "2026-10-12" "Timmie Kettle"
    "Debtors - TK" "Main - TK" apGoodW invsW je hje⟩

/-- C9: the email lookup always wins: when the email filter has a first
match the result is that customer's name (so when a different customer
matches the mobile, the email match is still returned); the mobile filter
decides the result only when the email filter is empty; and when both
filters are empty the result is `none`. -/
theorem search_customer_email_priority (db : List Customer) (e m : String)
    (he : e ≠ "") (hm : m ≠ "") :
    (∀ c1, (db.filter fun c => c.email_id == e).head? = some c1 →
        search_customer db (some e) (some m) = some c1.name)
    ∧ ((db.filter fun c => c.email_id == e) = [] →
        (∀ c2, (db.filter fun c => c.mobile_no == m).head? = some c2 →
            search_customer db (some e) (some m) = some c2.name)
        ∧ ((db.filter fun c => c.mobile_no == m) = [] →
            search_customer db (some e) (some m) = none))
    ∧ (∀ c1 c2, (db.filter fun c => c.email_id == e).head? = some c1 →
        c2 ∈ db → c2.mobile_no = m → c1.name ≠ c2.name →
        search_customer db (some e) (some m) = some c1.name ∧
        search_customer db (some e) (some m) ≠ some c2.name) := by
  have hte : truthyStr (some e) = true := by simp [truthyStr, he]
  have htm : truthyStr (some m) = true := by simp [truthyStr, hm]
  have hkey : ∀ c1, (db.filter fun c => c.email_id == e).head? = some c1 →
      search_customer db (some e) (some m) = some c1.name := by
    intro c1 hc1
    cases hfe : db.filter fun c => c.email_id == e with
    | nil => rw [hfe] at hc1; cases hc1
    | cons a tl =>
      rw [hfe] at hc1
      simp only [List.head?_cons, Option.some.injEq] at hc1
      subst hc1
      simp [search_customer, hte, hfe]
  refine ⟨hkey, ?_, ?_⟩
  · intro hfe
    constructor
    · intro c2 hc2
      cases hfm : db.filter fun c => c.mobile_no == m with
      | nil => rw [hfm] at hc2; cases hc2
      | cons a tl =>
        rw [hfm] at hc2
        simp only [List.head?_cons, Option.some.injEq] at hc2
        subst hc2
        simp [search_customer, hte, htm, hfe, hfm]
    · intro hfm
      simp [search_customer, hte, htm, hfe, hfm]
  · intro c1 c2 hc1 _ _ hne
    have hres := hkey c1 hc1
    refine ⟨hres, ?_⟩
    rw [hres]
    simp [hne]

/-- Witness for the C9 theorem: the email matches CUST-B while the mobile
matches CUST-A; the email match is returned. -/
theorem search_customer_email_priority_witness :
    search_customer dbW (some "b@x.com") (some "0801") = some "CUST-B" ∧
    search_customer dbW (some "b@x.com") (some "0801") ≠ some "CUST-A" :=
  (search_customer_email_priority dbW "b@x.com" "0801" (by decide) (by decide)).2.2
    { name := "CUST-B", email_id := "b@x.com", mobile_no := "0802" }
    { name := "CUST-A", email_id := "a@x.com", mobile_no := "0801" }
    (by decide) (by decide) (by decide) (by decide)

/-- C10: `update_user_role` writes role profile "Customer Service" exactly
when `active` is `True`, `"1"` or `1` under Python `==` membership, and the
literal "Test" otherwise; it returns `True` on the normal exit, propagates
the store's exception on the error exit, and on both exits the session
identity in effect before the call is restored. -/
theorem update_user_role_spec (st : UserState) (user : String) (active : PyVal)
    (dbFailure : Option String) :
    (update_user_role st user active dbFailure).1.session_user = st.session_user
    ∧ (update_user_role st user active dbFailure).2 =
        (match dbFailure with
         | none => Except.ok true
         | some e => Except.error e)
    ∧ (update_user_role st user active dbFailure).1.role_profile =
        (match dbFailure with
         | some _ => st.role_profile
         | none => fun u => if u = user then
             (if active = PyVal.pybool true ∨ active = PyVal.pystr "1" ∨
                active = PyVal.pyint 1
              then "Customer Service" else "Test")
           else st.role_profile u) := by
  cases dbFailure with
  | some e => exact ⟨rfl, rfl, rfl⟩
  | none =>
    refine ⟨rfl, rfl, ?_⟩
    funext u
    simp only [update_user_role, set_user]
    by_cases hu : u = user
    · rw [if_pos hu, if_pos hu]
      by_cases hcond : active = PyVal.pybool true ∨ active = PyVal.pystr "1" ∨
          active = PyVal.pyint 1
      · rw [if_pos ((pyEq_role_iff active).mpr hcond), if_pos hcond]
      · rw [if_neg (fun hh => hcond ((pyEq_role_iff active).mp hh)), if_neg hcond]
    · rw [if_neg hu, if_neg hu]

end Tk2
